import Mathlib

/-!
# Verification of the ticket classification and routing core

Shallow embedding of the priority scoring, classification normalization,
JSON recovery, retry, cache and routing logic of
`src/ai_pipeline/sentiment_agent.py` and
`src/ai_pipeline/simple_tavily_system.py`.

Modelling conventions: Python strings become Lean `String` (operating on the
underlying `List Char`); Python `str.lower`, `str.strip`, `str.capitalize`
are embedded on their ASCII fragment; Python float arithmetic on the small
decimal weights is embedded as exact rational arithmetic, with `pyRound`
implementing round-half-to-even as Python's `round` does; Python dicts become
insertion-ordered association lists; code that can raise an uncaught
exception returns `Except`.
-/

namespace TicketCore

/-! ## Python string primitives -/

/-- Whitespace characters recognised by Python's `str.strip` and the `\s`
regex class (ASCII fragment). -/
def pyIsWs (c : Char) : Bool :=
  c == ' ' || c == '\t' || c == '\n' || c == '\x0d' || c == '\x0b' || c == '\x0c'

/-- ASCII lower-casing of one character, as Python `str.lower` acts on ASCII. -/
def lowerChar (c : Char) : Char :=
  if 65 ≤ c.toNat ∧ c.toNat ≤ 90 then Char.ofNat (c.toNat + 32) else c

/-- ASCII upper-casing of one character, as Python `str.upper` acts on ASCII. -/
def upperChar (c : Char) : Char :=
  if 97 ≤ c.toNat ∧ c.toNat ≤ 122 then Char.ofNat (c.toNat - 32) else c

/-- Python `str.lower` (ASCII fragment). -/
def pyLower (s : String) : String := ⟨s.data.map lowerChar⟩

/-- Tests whether the first list is an initial segment of the second. -/
def listStarts : List Char → List Char → Bool
  | [], _ => true
  | _ :: _, [] => false
  | a :: as, b :: bs => a == b && listStarts as bs

/-- Tests whether `needle` occurs as a contiguous sublist of the second list. -/
def listHasSub (needle : List Char) : List Char → Bool
  | [] => listStarts needle []
  | c :: t => listStarts needle (c :: t) || listHasSub needle t

/-- Python's substring containment test `needle in hay`. -/
def strContains (hay needle : String) : Bool := listHasSub needle.data hay.data

/-- Python `str.strip`: remove leading and trailing whitespace. -/
def pyStrip (s : String) : String :=
  ⟨((s.data.dropWhile pyIsWs).reverse.dropWhile pyIsWs).reverse⟩

/-- Python `str.capitalize`: first character upper-cased, the rest
lower-cased (ASCII fragment). -/
def pyCapitalize (s : String) : String :=
  match s.data with
  | [] => ""
  | c :: rest => ⟨upperChar c :: rest.map lowerChar⟩

/-! ## Keyword tables (`SentimentAgent.__init__`)

The six indicator dictionaries, in source order.  Python dict literals
preserve insertion order; the scorer only takes a maximum over matches, so
the order is irrelevant to scoring but is kept faithful to the source. -/

/-- `self.urgency_indicators` (0-3 scale). -/
def urgencyIndicators : List (String × Nat) :=
  [("urgent", 3), ("critical failure", 3), ("emergency", 3), ("asap", 3), ("immediately", 3),
   ("blocked", 3), ("deadline approaching", 3), ("down", 3), ("broken", 3), ("failed", 3),
   ("not working", 3), ("crash", 3), ("unavailable", 3),
   ("important", 2), ("priority", 2), ("soon", 2), ("quickly", 2), ("fast", 2),
   ("issue", 2), ("problem", 2), ("error", 2), ("bug", 2),
   ("help", 1), ("assistance", 1), ("support", 1), ("question", 1),
   ("wondering", 0), ("curious", 0), ("learning", 0), ("explore", 0), ("understand", 0)]

/-- `self.business_impact_indicators` (0-3 scale). -/
def businessImpactIndicators : List (String × Nat) :=
  [("entire organization", 3), ("all users", 3), ("everyone", 3), ("company-wide", 3),
   ("organization", 3), ("enterprise", 3), ("all teams", 3), ("global", 3),
   ("team", 2), ("department", 2), ("bi team", 2), ("engineering", 2), ("data team", 2),
   ("analytics team", 2), ("multiple users", 2), ("several people", 2),
   ("few users", 1), ("small group", 1), ("couple of people", 1), ("some users", 1),
   ("individual", 0), ("personal", 0), ("just me", 0), ("myself", 0), ("single user", 0)]

/-- `self.severity_indicators` (0-3 scale). -/
def severityIndicators : List (String × Nat) :=
  [("production", 3), ("live", 3), ("down", 3), ("broken", 3), ("failed", 3), ("crash", 3),
   ("not working", 3), ("unavailable", 3), ("outage", 3), ("disruption", 3),
   ("security", 2), ("compliance", 2), ("audit", 2), ("pii", 2), ("sensitive", 2),
   ("rbac", 2), ("dlp", 2), ("sso", 2), ("authentication", 2), ("credentials", 2),
   ("setup", 2), ("configuration", 2), ("config", 2), ("install", 2), ("deploy", 2),
   ("integration", 2), ("connector", 2), ("api", 2), ("permissions", 2),
   ("how to", 1), ("how-to", 1), ("tutorial", 1), ("guide", 1), ("feature request", 1),
   ("enhancement", 1), ("improvement", 1), ("suggestion", 1), ("question", 1),
   ("info", 0), ("information", 0), ("curious", 0), ("wondering", 0), ("learning", 0),
   ("explore", 0), ("understand", 0), ("glossary", 0), ("definition", 0)]

/-- `self.compliance_security_indicators` (0-3 scale). -/
def complianceSecurityIndicators : List (String × Nat) :=
  [("audit", 3), ("compliance", 3), ("regulatory", 3), ("sox", 3), ("gdpr", 3), ("hipaa", 3),
   ("pii", 3), ("sensitive data", 3), ("confidential", 3), ("breach", 3), ("leak", 3),
   ("exposed", 3), ("security breach", 3), ("data loss", 3),
   ("rbac", 2), ("dlp", 2), ("sso", 2), ("authentication", 2), ("credentials", 2),
   ("permissions", 2), ("access control", 2), ("authorization", 2), ("privacy", 2),
   ("security", 1), ("best practices", 1), ("governance", 1), ("policy", 1),
   ("general", 0), ("info", 0), ("question", 0), ("how to", 0), ("tutorial", 0)]

/-- `self.deadline_indicators` (0-2 scale). -/
def deadlineIndicators : List (String × Nat) :=
  [("deadline", 2), ("due", 2), ("presentation", 2), ("meeting", 2), ("tomorrow", 2),
   ("today", 2), ("this week", 2), ("next week", 2), ("urgent", 2), ("asap", 2),
   ("immediately", 2), ("critical", 2), ("emergency", 2),
   ("soon", 1), ("quickly", 1), ("priority", 1), ("important", 1), ("timely", 1),
   ("whenever", 0), ("no rush", 0), ("curious", 0), ("learning", 0), ("explore", 0)]

/-- `self.sentiment_indicators` (0-2 scale). -/
def sentimentIndicators : List (String × Nat) :=
  [("angry", 2), ("frustrated", 2), ("annoyed", 2), ("upset", 2), ("irritated", 2),
   ("mad", 2), ("furious", 2), ("exasperated", 2), ("fed up", 2), ("disappointed", 2),
   ("concerned", 1), ("worried", 1), ("confused", 1), ("stuck", 1), ("struggling", 1),
   ("difficult", 1), ("challenging", 1), ("problem", 1), ("issue", 1),
   ("neutral", 0), ("curious", 0), ("wondering", 0), ("learning", 0), ("explore", 0),
   ("question", 0), ("help", 0), ("assistance", 0), ("support", 0)]

/-! ## Priority engine -/

/-- The `Priority` enum of the source. -/
inductive Priority where
  | P0
  | P1
  | P2
deriving DecidableEq

/-- The `.value` string of each `Priority` member. -/
def Priority.value : Priority → String
  | .P0 => "P0 (High)"
  | .P1 => "P1 (Medium)"
  | .P2 => "P2 (Low)"

/-- `self.priority_thresholds`. -/
def priorityThresholds : Priority → Int
  | .P0 => 9
  | .P1 => 6
  | .P2 => 4

/-- `_get_max_keyword_score`: the maximum configured score over all keywords
occurring as substrings of `text`, starting from `default`. -/
def getMaxKeywordScore (text : String) (tbl : List (String × Nat)) (default : Nat) : Nat :=
  tbl.foldl (fun m kv => if strContains text kv.1 then max m kv.2 else m) default

/-- Python's built-in `round` (round-half-to-even) on the exact rational
value of the weighted sum. -/
def pyRound (q : ℚ) : ℤ :=
  let f := ⌊q⌋
  if q - f < 1/2 then f
  else if 1/2 < q - f then f + 1
  else if f % 2 = 0 then f else f + 1

/-- The six signal scores computed by `_calculate_priority_score`. -/
structure ScoreVector where
  urgency : Nat
  businessImpact : Nat
  severity : Nat
  compliance : Nat
  deadline : Nat
  sentimentSignal : Nat
deriving DecidableEq

/-- `(subject + " " + body).lower()`. -/
def ticketText (subject body : String) : String := pyLower (subject ++ " " ++ body)

/-- The six `_get_max_keyword_score` calls of `_calculate_priority_score`. -/
def scoreVector (subject body : String) : ScoreVector :=
  let text := ticketText subject body
  { urgency := getMaxKeywordScore text urgencyIndicators 0
    businessImpact := getMaxKeywordScore text businessImpactIndicators 0
    severity := getMaxKeywordScore text severityIndicators 0
    compliance := getMaxKeywordScore text complianceSecurityIndicators 0
    deadline := getMaxKeywordScore text deadlineIndicators 0
    sentimentSignal := getMaxKeywordScore text sentimentIndicators 0 }

/-- The fixed linear combination of `_calculate_priority_score`. -/
def weightedSum (sv : ScoreVector) : ℚ :=
  (sv.urgency : ℚ) * (17/10) + (sv.businessImpact : ℚ) * (12/10) +
  (sv.severity : ℚ) * (13/10) + (sv.compliance : ℚ) * (14/10) +
  (sv.deadline : ℚ) * (13/10) + (sv.sentimentSignal : ℚ) * (11/10)

/-- The rounded final score of `_calculate_priority_score`. -/
def finalScore (subject body : String) : ℤ := pyRound (weightedSum (scoreVector subject body))

/-- `_calculate_priority_score`: priority, rounded final score, reasoning.
The `topic_tags` and `sentiment` parameters of the source are unused by its
body and are omitted. -/
def calculatePriorityScore (subject body : String) : Priority × ℤ × String :=
  let final := finalScore subject body
  let priority :=
    if final ≥ priorityThresholds .P0 then Priority.P0
    else if final ≥ priorityThresholds .P1 then Priority.P1
    else Priority.P2
  (priority, final, "Priority: " ++ priority.value ++ " (Score: " ++ toString final ++ ")")

/-! ## Topic and sentiment enumerations -/

/-- The `TopicTag` enum of the source. -/
inductive TopicTag where
  | HOW_TO
  | PRODUCT
  | CONNECTOR
  | LINEAGE
  | API_SDK
  | SSO
  | GLOSSARY
  | BEST_PRACTICES
  | SENSITIVE_DATA
  | OTHER
deriving DecidableEq

/-- The `.value` string of each `TopicTag` member. -/
def TopicTag.value : TopicTag → String
  | .HOW_TO => "How-to"
  | .PRODUCT => "Product"
  | .CONNECTOR => "Connector"
  | .LINEAGE => "Lineage"
  | .API_SDK => "API/SDK"
  | .SSO => "SSO"
  | .GLOSSARY => "Glossary"
  | .BEST_PRACTICES => "Best practices"
  | .SENSITIVE_DATA => "Sensitive data"
  | .OTHER => "Other"

/-- Python `TopicTag(s)`: enum lookup by value, case-sensitive; `none` models
the `ValueError` of an unrecognised value. -/
def topicTagOfValue? (s : String) : Option TopicTag :=
  if s = "How-to" then some .HOW_TO
  else if s = "Product" then some .PRODUCT
  else if s = "Connector" then some .CONNECTOR
  else if s = "Lineage" then some .LINEAGE
  else if s = "API/SDK" then some .API_SDK
  else if s = "SSO" then some .SSO
  else if s = "Glossary" then some .GLOSSARY
  else if s = "Best practices" then some .BEST_PRACTICES
  else if s = "Sensitive data" then some .SENSITIVE_DATA
  else if s = "Other" then some .OTHER
  else none

/-- The `Sentiment` enum of the source. -/
inductive Sentiment where
  | FRUSTRATED
  | CURIOUS
  | ANGRY
  | NEUTRAL
  | CONFUSED
deriving DecidableEq

/-- The `.value` string of each `Sentiment` member. -/
def Sentiment.value : Sentiment → String
  | .FRUSTRATED => "Frustrated"
  | .CURIOUS => "Curious"
  | .ANGRY => "Angry"
  | .NEUTRAL => "Neutral"
  | .CONFUSED => "Confused"

/-- Python `Sentiment(s)`: enum lookup by value. -/
def sentimentOfValue? (s : String) : Option Sentiment :=
  if s = "Frustrated" then some .FRUSTRATED
  else if s = "Curious" then some .CURIOUS
  else if s = "Angry" then some .ANGRY
  else if s = "Neutral" then some .NEUTRAL
  else if s = "Confused" then some .CONFUSED
  else none

/-! ## Python values and dictionaries

Parsed JSON values.  Python dicts are embedded as insertion-ordered
association lists with unique keys (assignment to an existing key keeps its
position).  Nonfinite float literals (`NaN`, `Infinity`), which `json.loads`
would accept, are not representable here and are not exercised by any
property below. -/

/-- A Python value as produced by `json.loads`. -/
inductive PyVal where
  | vnull
  | vbool (b : Bool)
  | vnum (q : ℚ)
  | vstr (s : String)
  | vlist (xs : List PyVal)
  | vdict (entries : List (String × PyVal))

/-- First value bound to key `k`, if any. -/
def dictFind? (d : List (String × PyVal)) (k : String) : Option PyVal :=
  match d with
  | [] => none
  | (k', v) :: rest => if k' = k then some v else dictFind? rest k

/-- Python `k in d` for a dict. -/
def dictHasKey (d : List (String × PyVal)) (k : String) : Bool :=
  (dictFind? d k).isSome

/-- Python `d[k] = v`: replace in place if the key exists, else append. -/
def dictSet (d : List (String × PyVal)) (k : String) (v : PyVal) :
    List (String × PyVal) :=
  match d with
  | [] => [(k, v)]
  | (k', v') :: rest => if k' = k then (k', v) :: rest else (k', v') :: dictSet rest k v

/-- Python `e == k` where `k` is a string. -/
def isStrEq (k : String) (e : PyVal) : Bool :=
  match e with
  | .vstr t => t = k
  | _ => false

/-! ## Classification normalization (`classify_ticket`) -/

/-- Python `TopicTag(v)` applied to one raw element: a `ValueError` or
`TypeError` (non-string or unrecognised string) is `none`. -/
def topicOfRaw? (v : PyVal) : Option TopicTag :=
  match v with
  | .vstr s => topicTagOfValue? s
  | _ => none

/-- The list comprehension `[TopicTag(topic) for topic in topics]`: fails
(raising out to the `except` clause) at the first invalid element. -/
def mapTopics : List PyVal → Option (List TopicTag)
  | [] => some []
  | v :: rest =>
    match topicOfRaw? v with
    | none => none
    | some t =>
      match mapTopics rest with
      | none => none
      | some ts => some (t :: ts)

/-- The topic-normalization block of `classify_ticket` applied to a parsed
dict: accept a `topics` list or a `category` string, else default; an
element failing the `TopicTag` enum lookup (`ValueError`/`TypeError`) makes
the whole list fall back to `[How-to]`. -/
def normalizeTopicsDict (topicData : List (String × PyVal)) : List TopicTag :=
  let topics : List PyVal :=
    if dictHasKey topicData "topics" then
      match dictFind? topicData "topics" with
      | some (.vlist xs) => xs
      | _ => [.vstr "How-to"]
    else if dictHasKey topicData "category" then
      [(dictFind? topicData "category").getD (.vstr "How-to")]
    else
      [.vstr "How-to"]
  match mapTopics topics with
  | some tags => tags
  | none => [.HOW_TO]

/-- The topic-normalization block on an arbitrary parsed value.  A non-dict
value makes `"topics" in topic_data` either a substring/membership test
(str/list) or a `TypeError` (caught, giving the default); a str/list that
does contain the key reaches `.get` and raises an uncaught
`AttributeError`, modelled as `.error`. -/
def normalizeTopicsVal (topicData : PyVal) : Except String (List TopicTag) :=
  match topicData with
  | .vdict d => .ok (normalizeTopicsDict d)
  | .vstr s =>
    if strContains s "topics" then .error "AttributeError: str has no attribute get"
    else if strContains s "category" then .error "AttributeError: str has no attribute get"
    else .ok [.HOW_TO]
  | .vlist xs =>
    if xs.any (isStrEq "topics") then .error "AttributeError: list has no attribute get"
    else if xs.any (isStrEq "category") then .error "AttributeError: list has no attribute get"
    else .ok [.HOW_TO]
  | _ => .ok [.HOW_TO]

/-- `valid_sentiments` of `classify_ticket`. -/
def validSentiments : List String := ["Neutral", "Curious", "Confused", "Frustrated", "Angry"]

/-- `sentiment_mapping` of `classify_ticket`. -/
def sentimentMapping : List (String × String) :=
  [("Concerned", "Confused"), ("Worried", "Confused"), ("Annoyed", "Frustrated"),
   ("Upset", "Frustrated"), ("Irritated", "Frustrated"), ("Hostile", "Angry"),
   ("Furious", "Angry")]

/-- The sentiment-normalization block of `classify_ticket` on a sentiment
string: capitalize, apply the synonym map, validate, default to `Neutral`. -/
def normalizeSentimentStr (s : String) : Sentiment :=
  let lbl := pyCapitalize s
  let lbl :=
    match sentimentMapping.find? (fun kv => kv.1 == lbl) with
    | some kv => kv.2
    | none => if validSentiments.contains lbl then lbl else "Neutral"
  match sentimentOfValue? lbl with
  | some x => x
  | none => .NEUTRAL

/-- The sentiment-normalization block on an arbitrary parsed value.
`sentiment_data.get(...)` on a non-dict, or `.capitalize()` on a non-string,
raises an uncaught `AttributeError`, modelled as `.error`. -/
def normalizeSentimentVal (sentimentData : PyVal) : Except String Sentiment :=
  match sentimentData with
  | .vdict d =>
    match (dictFind? d "sentiment").getD (.vstr "Neutral") with
    | .vstr s => .ok (normalizeSentimentStr s)
    | _ => .error "AttributeError: value has no attribute capitalize"
  | _ => .error "AttributeError: value has no attribute get"

/-! ## JSON recovery (`_parse_json_response`) -/

/-- JSON whitespace accepted between tokens by `json.loads`. -/
def isJsonWs (c : Char) : Bool := c == ' ' || c == '\t' || c == '\n' || c == '\x0d'

/-- Drop leading JSON whitespace. -/
def skipJsonWs (cs : List Char) : List Char := cs.dropWhile isJsonWs

/-- Value of a hexadecimal digit. -/
def hexVal? (c : Char) : Option Nat :=
  if 48 ≤ c.toNat ∧ c.toNat ≤ 57 then some (c.toNat - 48)
  else if 97 ≤ c.toNat ∧ c.toNat ≤ 102 then some (c.toNat - 87)
  else if 65 ≤ c.toNat ∧ c.toNat ≤ 70 then some (c.toNat - 55)
  else none

/-- Body of a JSON string literal, after the opening quote: returns the
decoded characters and the rest of the input past the closing quote. -/
def jsonStrChars : List Char → Except String (List Char × List Char)
  | [] => .error "Unterminated string"
  | c :: rest =>
    if c == '"' then .ok ([], rest)
    else if c == '\\' then
      match rest with
      | [] => .error "Unterminated string"
      | e :: rest2 =>
        if e == 'u' then
          match rest2 with
          | h1 :: h2 :: h3 :: h4 :: rest3 =>
            match hexVal? h1, hexVal? h2, hexVal? h3, hexVal? h4 with
            | some a, some b, some c', some d =>
              match jsonStrChars rest3 with
              | .ok (s, r) => .ok (Char.ofNat (((a * 16 + b) * 16 + c') * 16 + d) :: s, r)
              | .error m => .error m
            | _, _, _, _ => .error "Invalid hex escape"
          | _ => .error "Invalid hex escape"
        else
          match
            (if e == '"' then some '"'
             else if e == '\\' then some '\\'
             else if e == '/' then some '/'
             else if e == 'b' then some '\x08'
             else if e == 'f' then some '\x0c'
             else if e == 'n' then some '\n'
             else if e == 'r' then some '\x0d'
             else if e == 't' then some '\t'
             else none) with
          | some d =>
            match jsonStrChars rest2 with
            | .ok (s, r) => .ok (d :: s, r)
            | .error m => .error m
          | none => .error "Invalid escape"
    else if c.toNat < 32 then .error "Invalid control character"
    else
      match jsonStrChars rest with
      | .ok (s, r) => .ok (c :: s, r)
      | .error m => .error m

/-- Decimal digit test. -/
def isDigitCh (c : Char) : Bool := 48 ≤ c.toNat && c.toNat ≤ 57

/-- Natural number denoted by a digit run. -/
def natOfDigits (ds : List Char) : Nat :=
  ds.foldl (fun acc c => acc * 10 + (c.toNat - 48)) 0

/-- A JSON number literal, per the JSON grammar, as an exact rational. -/
def jsonNumber (cs : List Char) : Except String (ℚ × List Char) :=
  let (neg, cs1) :=
    match cs with
    | '-' :: t => (true, t)
    | _ => (false, cs)
  let intDigits := cs1.takeWhile isDigitCh
  let cs2 := cs1.dropWhile isDigitCh
  if intDigits = [] then .error "Expecting value"
  else if 2 ≤ intDigits.length ∧ intDigits.headI = '0' then .error "Leading zero"
  else
    let (fracDigits, cs3) :=
      match cs2 with
      | '.' :: t => (t.takeWhile isDigitCh, t.dropWhile isDigitCh)
      | _ => ([], cs2)
    if cs2 ≠ [] ∧ cs2.headI = '.' ∧ fracDigits = [] then .error "Expecting digits after point"
    else
      let (hasExp, cs4) :=
        match cs3 with
        | 'e' :: t => (true, t)
        | 'E' :: t => (true, t)
        | _ => (false, cs3)
      let (expNeg, cs5) :=
        match hasExp, cs4 with
        | true, '+' :: t => (false, t)
        | true, '-' :: t => (true, t)
        | _, _ => (false, cs4)
      let expDigits := if hasExp then cs5.takeWhile isDigitCh else []
      let rest := if hasExp then cs5.dropWhile isDigitCh else cs4
      if hasExp ∧ expDigits = [] then .error "Expecting exponent digits"
      else
        let mantissa : ℚ :=
          (natOfDigits (intDigits ++ fracDigits) : ℚ) / ((10 : ℚ) ^ fracDigits.length)
        let scaled : ℚ :=
          if expNeg then mantissa / ((10 : ℚ) ^ natOfDigits expDigits)
          else mantissa * ((10 : ℚ) ^ natOfDigits expDigits)
        .ok (if neg then -scaled else scaled, rest)

/-- An unfinished JSON container during parsing: an array with the elements
collected so far (reversed), or an object with the entries collected so far
and the key whose value is being parsed. -/
inductive JFrame where
  | arr (acc : List PyVal)
  | obj (acc : List (String × PyVal)) (key : String)

/-- Parser state: expecting a value, or having just completed one. -/
inductive JState where
  | parse (stack : List JFrame)
  | closed (stack : List JFrame) (v : PyVal)

/-- The recursive-descent core of `json.loads`, written iteratively over an
explicit stack of open containers so that it is structurally recursive on
the fuel (one unit per step; the fuel passed by `jsonLoads` always
suffices).  Objects are assembled with dict-assignment semantics (duplicate
keys: first position, last value). -/
def jsonRun : Nat → JState → List Char → Except String (PyVal × List Char)
  | 0, _, _ => .error "Out of fuel"
  | fuel + 1, .parse stack, cs =>
    match skipJsonWs cs with
    | [] => .error "Expecting value"
    | c :: rest =>
      if c == '{' then
        match skipJsonWs rest with
        | '}' :: r2 => jsonRun fuel (.closed stack (.vdict [])) r2
        | '"' :: r2 =>
          match jsonStrChars r2 with
          | .error m => .error m
          | .ok (k, r3) =>
            match skipJsonWs r3 with
            | ':' :: r4 => jsonRun fuel (.parse (.obj [] ⟨k⟩ :: stack)) r4
            | _ => .error "Expecting colon"
        | _ => .error "Expecting property name"
      else if c == '[' then
        match skipJsonWs rest with
        | ']' :: r2 => jsonRun fuel (.closed stack (.vlist [])) r2
        | _ => jsonRun fuel (.parse (.arr [] :: stack)) rest
      else if c == '"' then
        match jsonStrChars rest with
        | .error m => .error m
        | .ok (s, r) => jsonRun fuel (.closed stack (.vstr ⟨s⟩)) r
      else if listStarts "true".data (c :: rest) then
        jsonRun fuel (.closed stack (.vbool true)) (rest.drop 3)
      else if listStarts "false".data (c :: rest) then
        jsonRun fuel (.closed stack (.vbool false)) (rest.drop 4)
      else if listStarts "null".data (c :: rest) then
        jsonRun fuel (.closed stack .vnull) (rest.drop 3)
      else
        match jsonNumber (c :: rest) with
        | .error m => .error m
        | .ok (q, r) => jsonRun fuel (.closed stack (.vnum q)) r
  | _ + 1, .closed [] v, cs => .ok (v, cs)
  | fuel + 1, .closed (.arr acc :: stack) v, cs =>
    match skipJsonWs cs with
    | ',' :: r => jsonRun fuel (.parse (.arr (v :: acc) :: stack)) r
    | ']' :: r => jsonRun fuel (.closed stack (.vlist (v :: acc).reverse)) r
    | _ => .error "Expecting comma or end of array"
  | fuel + 1, .closed (.obj acc k :: stack) v, cs =>
    let acc := dictSet acc k v
    match skipJsonWs cs with
    | ',' :: r =>
      match skipJsonWs r with
      | '"' :: r2 =>
        match jsonStrChars r2 with
        | .error m => .error m
        | .ok (k2, r3) =>
          match skipJsonWs r3 with
          | ':' :: r4 => jsonRun fuel (.parse (.obj acc ⟨k2⟩ :: stack)) r4
          | _ => .error "Expecting colon"
      | _ => .error "Expecting property name"
    | '}' :: r => jsonRun fuel (.closed stack (.vdict acc)) r
    | _ => .error "Expecting comma or end of object"

/-- `json.loads`: parse one value and require only whitespace after it.  The
fuel is generous for every input reachable from the cleaning pipeline. -/
def jsonLoads (s : String) : Except String PyVal :=
  match jsonRun (2 * s.data.length + 8) (.parse []) s.data with
  | .ok (v, rest) => if skipJsonWs rest = [] then .ok v else .error "Extra data"
  | .error m => .error m

/-- Python `s.find(sub)` machinery: index of the first match at or past the
running index. -/
def findSubAux (needle : List Char) : List Char → Nat → Option Nat
  | [], i => if listStarts needle [] then some i else none
  | c :: t, i => if listStarts needle (c :: t) then some i else findSubAux needle t (i + 1)

/-- Python `s.find(sub)` (`none` for `-1`). -/
def pyFind (s sub : String) : Option Nat := findSubAux sub.data s.data 0

/-- Python `s.find(sub, start)`. -/
def pyFindFrom (s sub : String) (start : Nat) : Option Nat :=
  (findSubAux sub.data (s.data.drop start) 0).map (· + start)

/-- Python `s.rfind(sub)`: index of the last match. -/
def rfindAux (needle : List Char) : List Char → Nat → Option Nat → Option Nat
  | hay, i, best =>
    let best := if listStarts needle hay then some i else best
    match hay with
    | [] => best
    | _ :: t => rfindAux needle t (i + 1) best

/-- Python `s.rfind(sub)` (`none` for `-1`). -/
def pyRFind (s sub : String) : Option Nat := rfindAux sub.data s.data 0 none

/-- Python slice `s[a:b]` (for the in-range uses of the source). -/
def pySlice (s : String) (a b : Nat) : String := ⟨(s.data.take b).drop a⟩

/-- The markdown code-fence stripping step of `_parse_json_response`. -/
def stripCodeFence (s : String) : String :=
  if strContains s "```json" then
    match pyFind s "```json" with
    | none => s
    | some idx =>
      match pyFindFrom s "```" (idx + 7) with
      | none => s
      | some e => pyStrip (pySlice s (idx + 7) e)
  else if strContains s "```" then
    match pyFind s "```" with
    | none => s
    | some idx =>
      match pyFindFrom s "```" (idx + 3) with
      | none => s
      | some e => pyStrip (pySlice s (idx + 3) e)
  else s

/-- The brace-extraction step: keep the substring from the first `{` to the
last `}` when both exist in that order. -/
def extractBraces (s : String) : String :=
  match pyFind s "\x7b", pyRFind s "\x7d" with
  | some sb, some eb => if sb < eb then pySlice s sb (eb + 1) else s
  | _, _ => s

/-- `re.sub(r'\s+', ' ', s)`: collapse each whitespace run to one space. -/
def collapseWsAux (prevWs : Bool) : List Char → List Char
  | [] => []
  | c :: t =>
    if pyIsWs c then
      if prevWs then collapseWsAux true t else ' ' :: collapseWsAux true t
    else c :: collapseWsAux false t

/-- Delete whitespace immediately following each occurrence of `target`,
i.e. `re.sub(target + r'\s*', target, s)`. -/
def delWsAfterAux (target : Char) (dropping : Bool) : List Char → List Char
  | [] => []
  | c :: t =>
    if pyIsWs c ∧ dropping then delWsAfterAux target true t
    else if c == target then c :: delWsAfterAux target true t
    else c :: delWsAfterAux target false t

/-- Delete whitespace immediately preceding each occurrence of `target`,
i.e. `re.sub(r'\s*' + target, target, s)`. -/
def delWsBefore (target : Char) (cs : List Char) : List Char :=
  (delWsAfterAux target false cs.reverse).reverse

/-- `re.sub(r'\s*X\s*', 'X', s)` for a structural character `X`. -/
def delWsAround (target : Char) (cs : List Char) : List Char :=
  delWsBefore target (delWsAfterAux target false cs)

/-- The regex-cleaning chain of `_parse_json_response`, in source order. -/
def regexClean (s : String) : String :=
  let cs := collapseWsAux false s.data
  let cs := delWsAround '{' cs
  let cs := delWsAround '}' cs
  let cs := delWsAround '[' cs
  let cs := delWsAround ']' cs
  let cs := delWsAround ',' cs
  let cs := delWsAround ':' cs
  let cs := delWsAfterAux '"' false cs
  let cs := delWsBefore '"' cs
  ⟨cs⟩

/-- The key-cleaning step: `key.strip()` then removal of every newline,
carriage return and tab character. -/
def cleanKey (k : String) : String :=
  ⟨(pyStrip k).data.filter (fun c => !(c == '\n' || c == '\x0d' || c == '\t'))⟩

/-- Rebuild the parsed dict with cleaned keys, by successive assignment. -/
def cleanKeysDict (d : List (String × PyVal)) : List (String × PyVal) :=
  d.foldl (fun acc kv => dictSet acc (cleanKey kv.1) kv.2) []

/-- The cleaning-then-parse attempt inside the `try` of
`_parse_json_response`: strip, strip code fences, extract braces, collapse
and trim whitespace, then `json.loads`. -/
def parseJsonAttempt (response : String) : Except String PyVal :=
  let c := pyStrip response
  let c := stripCodeFence c
  let c := extractBraces c
  let c := regexClean c
  jsonLoads c

/-- The safe fallback dict returned when parsing fails. -/
def fallbackDict : PyVal :=
  .vdict [("topics", .vlist [.vstr "How-to"]), ("reasoning", .vstr "Failed to parse response")]

/-- `_parse_json_response`: total; every failure of the attempt is caught
and replaced by the safe fallback. -/
def parseJsonResponse (response : String) : PyVal :=
  match parseJsonAttempt response with
  | .ok (.vdict d) => .vdict (cleanKeysDict d)
  | .ok v => v
  | .error _ => fallbackDict

/-! ## Ticket classifier (`classify_ticket`) -/

/-- Python `', '.join(xs)`. -/
def joinCommaSpace : List String → String
  | [] => ""
  | [x] => x
  | x :: y :: rest => x ++ ", " ++ joinCommaSpace (y :: rest)

/-- The `ClassificationResult` dataclass. -/
structure ClassificationResult where
  topicTags : List TopicTag
  sentiment : Sentiment
  priority : Priority
  confidence : ℚ
  reasoning : String
deriving DecidableEq

/-- `classify_ticket`, as a function of the two raw LLM response strings
(the external capability's outputs) and the ticket subject and body.
`.error` models an uncaught exception propagating to the caller. -/
def classifyTicket (topicResponse sentimentResponse subject body : String) :
    Except String ClassificationResult :=
  let topicData := parseJsonResponse topicResponse
  let sentimentData := parseJsonResponse sentimentResponse
  match normalizeTopicsVal topicData with
  | .error e => .error e
  | .ok tags =>
    match normalizeSentimentVal sentimentData with
    | .error e => .error e
    | .ok senti =>
      let (priority, score, _) := calculatePriorityScore subject body
      let confidence := min (95 / 100 : ℚ) (6 / 10 + |(score : ℚ) - 9 / 2| / 10)
      .ok { topicTags := tags
            sentiment := senti
            priority := priority
            confidence := confidence
            reasoning := "Topics: " ++ joinCommaSpace (tags.map TopicTag.value) ++
              "; Sentiment: " ++ senti.value ++ "; Priority: " ++ priority.value }

/-! ## Routing policy (`SimpleTavilySystem.process_ticket`) -/

/-- The routing decision embedded from `process_ticket`: whether the Tavily
automated-answer path is taken, the selected search-site scope, and the
escalation routing message. -/
structure TavilyRouting where
  useAutomatedAnswer : Bool
  siteType : Option String
  routingMessage : Option String
deriving DecidableEq

/-- The fixed allow-set `tavily_topics` of `process_ticket`. -/
def tavilyTopics : List String := ["How-to", "Product", "Best practices", "API/SDK", "SSO"]

/-- First value bound to a key in a string-valued table. -/
def lookupStr (d : List (String × String)) (k : String) : Option String :=
  match d with
  | [] => none
  | (k', v) :: rest => if k' = k then some v else lookupStr rest k

/-- The `routing_messages` table of `process_ticket`. -/
def routingMessages : List (String × String) :=
  [("Connector", "This ticket has been classified as a 'Connector' issue and routed to the appropriate team."),
   ("Lineage", "This ticket has been classified as a 'Lineage' issue and routed to the appropriate team."),
   ("Glossary", "This ticket has been classified as a 'Glossary' issue and routed to the appropriate team."),
   ("Sensitive data", "This ticket has been classified as a 'Sensitive data' issue and routed to the appropriate team."),
   ("Other", "This ticket has been classified as 'Other' and routed to the appropriate team.")]

/-- The routing decision of `process_ticket` as a function of the
classification's topic-tag strings. -/
def routeTicket (topicTags : List String) : TavilyRouting :=
  let shouldUseTavily := topicTags.any (fun t => tavilyTopics.contains t)
  if shouldUseTavily then
    let siteType :=
      if topicTags.contains "API/SDK" then "devhub"
      else if (["Product", "Best practices", "SSO", "How-to"] : List String).any
          (fun t => topicTags.contains t) then "docs"
      else "both"
    { useAutomatedAnswer := true, siteType := some siteType, routingMessage := none }
  else
    let primaryTopic := topicTags.headD "Other"
    let msg := (lookupStr routingMessages primaryTopic).getD
      ("This ticket has been classified as a '" ++ primaryTopic ++
        "' issue and routed to the appropriate team.")
    { useAutomatedAnswer := false, siteType := none, routingMessage := some msg }

/-! ## Response cache (`_cache_response`) -/

/-- `self._cache_max_size`. -/
def cacheMaxSize : Nat := 1000

/-- Python dict assignment `self._cache[key] = response`: replace in place
when the key exists, else append in insertion order. -/
def cacheInsert (cache : List (String × String)) (k v : String) : List (String × String) :=
  if cache.any (fun e => e.1 == k) then
    cache.map (fun e => if e.1 == k then (e.1, v) else e)
  else cache ++ [(k, v)]

/-- `_cache_response` with the capacity as a parameter: when the cache is at
or above capacity, delete the `size - capacity + 1` earliest-inserted
entries, then insert. -/
def cacheResponseGen (cap : Nat) (cache : List (String × String)) (k v : String) :
    List (String × String) :=
  let cache' := if cap ≤ cache.length then cache.drop (cache.length - cap + 1) else cache
  cacheInsert cache' k v

/-- `_cache_response` at the source's capacity of 1000. -/
def cacheResponse (cache : List (String × String)) (k v : String) : List (String × String) :=
  cacheResponseGen cacheMaxSize cache k v

/-! ## Retry with backoff (`_get_llm_response`) -/

/-- Outcome of one call to the external chat-completion capability. -/
inductive CallOutcome where
  | success (s : String)
  | failure (msg : String)

/-- `max_retries` of `_get_llm_response`. -/
def maxRetries : Nat := 3

/-- `base_delay` of `_get_llm_response` (seconds, as an exact rational). -/
def baseDelay : ℚ := 1

/-- The rate-limit test on the stringified exception. -/
def isRateLimitMsg (m : String) : Bool :=
  strContains m "rate_limit_exceeded" || strContains m "429"

/-- Observable trace of the retry loop: final result, the sleep durations
in order, and the number of calls issued to the capability. -/
structure LlmTrace where
  result : Except String String
  delays : List ℚ
  calls : Nat

/-- The retry loop of `_get_llm_response`: the capability's outcome on
attempt `a` is `oracle a`, and `jitter a` is the `random.uniform(0.5, 1.5)`
draw of attempt `a`.  The fuel equals the remaining loop iterations; the
fuel-exhausted branch is the source's unreachable trailing `raise`. -/
def llmAttempts (oracle : Nat → CallOutcome) (jitter : Nat → ℚ) : Nat → Nat → LlmTrace
  | _, 0 => { result := .error "Unexpected error in API call", delays := [], calls := 0 }
  | a, fuel + 1 =>
    match oracle a with
    | .success s => { result := .ok s, delays := [], calls := 1 }
    | .failure m =>
      if isRateLimitMsg m then
        if a < maxRetries - 1 then
          let t := llmAttempts oracle jitter (a + 1) fuel
          { result := t.result
            delays := (baseDelay * 2 ^ a + jitter a) :: t.delays
            calls := t.calls + 1 }
        else
          { result := .error ("Rate limit exceeded after " ++ toString maxRetries ++
              " attempts: " ++ m)
            delays := [], calls := 1 }
      else
        if a < maxRetries - 1 then
          let t := llmAttempts oracle jitter (a + 1) fuel
          { result := t.result, delays := baseDelay :: t.delays, calls := t.calls + 1 }
        else
          { result := .error ("API call failed after " ++ toString maxRetries ++
              " attempts: " ++ m)
            delays := [], calls := 1 }

/-- The whole `for attempt in range(max_retries)` loop, from attempt 0. -/
def getLlmResponseTrace (oracle : Nat → CallOutcome) (jitter : Nat → ℚ) : LlmTrace :=
  llmAttempts oracle jitter 0 maxRetries

/-! ## Lemmas: the keyword scorer computes a maximum -/

theorem getMax_nil (text : String) (d : Nat) : getMaxKeywordScore text [] d = d := rfl

theorem getMax_cons (text : String) (p : String × Nat) (rest : List (String × Nat)) (d : Nat) :
    getMaxKeywordScore text (p :: rest) d =
      getMaxKeywordScore text rest (if strContains text p.1 then max d p.2 else d) := rfl

theorem le_getMax (text : String) :
    ∀ (tbl : List (String × Nat)) (d : Nat), d ≤ getMaxKeywordScore text tbl d := by
  intro tbl
  induction tbl with
  | nil => intro d; exact le_of_eq rfl
  | cons q rest ih =>
    intro d
    rw [getMax_cons]
    refine le_trans ?_ (ih _)
    by_cases hc : strContains text q.1 = true
    · simp [hc]
    · simp [hc]

theorem matched_le_getMax (text : String) :
    ∀ (tbl : List (String × Nat)) (d : Nat) (p : String × Nat),
      p ∈ tbl → strContains text p.1 = true → p.2 ≤ getMaxKeywordScore text tbl d := by
  intro tbl
  induction tbl with
  | nil => intro d p hp; exact absurd hp (List.not_mem_nil p)
  | cons q rest ih =>
    intro d p hp hc
    rw [getMax_cons]
    rcases List.mem_cons.mp hp with hq | hmem
    · subst hq
      refine le_trans ?_ (le_getMax text rest _)
      simp [hc]
    · exact ih _ p hmem hc

theorem getMax_eq_start_or_matched (text : String) :
    ∀ (tbl : List (String × Nat)) (d : Nat),
      getMaxKeywordScore text tbl d = d ∨
        ∃ p ∈ tbl, strContains text p.1 = true ∧ getMaxKeywordScore text tbl d = p.2 := by
  intro tbl
  induction tbl with
  | nil => intro d; left; rfl
  | cons q rest ih =>
    intro d
    rw [getMax_cons]
    by_cases hc : strContains text q.1 = true
    · simp only [hc, if_true]
      rcases ih (max d q.2) with heq | ⟨p, hp, hcp, hep⟩
      · rcases le_total d q.2 with hle | hle
        · right
          exact ⟨q, List.mem_cons_self q rest, hc, by rw [heq, max_eq_right hle]⟩
        · left
          rw [heq, max_eq_left hle]
      · right
        exact ⟨p, List.mem_cons_of_mem q hp, hcp, hep⟩
    · simp only [hc, if_false]
      rcases ih d with heq | ⟨p, hp, hcp, hep⟩
      · left; exact heq
      · right; exact ⟨p, List.mem_cons_of_mem q hp, hcp, hep⟩

theorem getMax_no_match (text : String) :
    ∀ (tbl : List (String × Nat)) (d : Nat),
      (∀ p ∈ tbl, strContains text p.1 = false) → getMaxKeywordScore text tbl d = d := by
  intro tbl
  induction tbl with
  | nil => intro d _; rfl
  | cons q rest ih =>
    intro d h
    rw [getMax_cons]
    have hq : strContains text q.1 = false := h q (List.mem_cons_self q rest)
    simp only [hq, if_false, Bool.false_eq_true]
    exact ih d fun p hp => h p (List.mem_cons_of_mem q hp)

/-! ## Lemmas: evaluating `pyRound` -/

theorem pyRound_eq_of_lt_half (q : ℚ) (n : ℤ) (h1 : (n : ℚ) ≤ q) (h2 : q < n + 1)
    (h3 : q - n < 1 / 2) : pyRound q = n := by
  have hf : ⌊q⌋ = n := Int.floor_eq_iff.mpr ⟨h1, h2⟩
  simp only [pyRound, hf]
  rw [if_pos h3]

theorem pyRound_eq_of_half_lt (q : ℚ) (n : ℤ) (h1 : (n : ℚ) ≤ q) (h2 : q < n + 1)
    (h3 : 1 / 2 < q - n) : pyRound q = n + 1 := by
  have hf : ⌊q⌋ = n := Int.floor_eq_iff.mpr ⟨h1, h2⟩
  simp only [pyRound, hf]
  rw [if_neg (by linarith), if_pos h3]

/-! ## Claim theorems -/

/-- C1: each of the six signal scores is the maximum configured score over
all phrases of the corresponding keyword table occurring as substrings of
the lower-cased `subject + " " + body` (0 when no phrase occurs), the final
score is the rounding of the weighted combination with weights 1.7, 1.2,
1.3, 1.4, 1.3, 1.1, and a text containing "urgent", "entire organization",
"production", "gdpr", "deadline" and "angry" yields final score 22. -/
theorem priority_score_formula :
    (∀ (text : String) (tbl : List (String × Nat)) (p : String × Nat),
        p ∈ tbl → strContains text p.1 = true → p.2 ≤ getMaxKeywordScore text tbl 0)
    ∧ (∀ (text : String) (tbl : List (String × Nat)),
        getMaxKeywordScore text tbl 0 = 0 ∨
          ∃ p ∈ tbl, strContains text p.1 = true ∧ getMaxKeywordScore text tbl 0 = p.2)
    ∧ (∀ (text : String) (tbl : List (String × Nat)),
        (∀ p ∈ tbl, strContains text p.1 = false) → getMaxKeywordScore text tbl 0 = 0)
    ∧ (∀ subject body : String,
        scoreVector subject body =
          { urgency := getMaxKeywordScore (ticketText subject body) urgencyIndicators 0
            businessImpact := getMaxKeywordScore (ticketText subject body) businessImpactIndicators 0
            severity := getMaxKeywordScore (ticketText subject body) severityIndicators 0
            compliance := getMaxKeywordScore (ticketText subject body) complianceSecurityIndicators 0
            deadline := getMaxKeywordScore (ticketText subject body) deadlineIndicators 0
            sentimentSignal := getMaxKeywordScore (ticketText subject body) sentimentIndicators 0 })
    ∧ (∀ subject body : String,
        (calculatePriorityScore subject body).2.1 =
          pyRound (((scoreVector subject body).urgency : ℚ) * (17 / 10)
            + ((scoreVector subject body).businessImpact : ℚ) * (12 / 10)
            + ((scoreVector subject body).severity : ℚ) * (13 / 10)
            + ((scoreVector subject body).compliance : ℚ) * (14 / 10)
            + ((scoreVector subject body).deadline : ℚ) * (13 / 10)
            + ((scoreVector subject body).sentimentSignal : ℚ) * (11 / 10)))
    ∧ scoreVector "urgent entire organization" "production gdpr deadline angry" = ⟨3, 3, 3, 3, 2, 2⟩
    ∧ (calculatePriorityScore "urgent entire organization" "production gdpr deadline angry").2.1 = 22 := by
  have hsv : scoreVector "urgent entire organization" "production gdpr deadline angry" =
      ⟨3, 3, 3, 3, 2, 2⟩ := by decide
  refine ⟨?_, ?_, ?_, ?_, ?_, hsv, ?_⟩
  · intro text tbl p hp hc; exact matched_le_getMax text tbl 0 p hp hc
  · intro text tbl
    rcases getMax_eq_start_or_matched text tbl 0 with h | h
    · exact Or.inl h
    · exact Or.inr h
  · intro text tbl h; exact getMax_no_match text tbl 0 h
  · intro subject body; rfl
  · intro subject body; rfl
  · show finalScore "urgent entire organization" "production gdpr deadline angry" = 22
    rw [finalScore, hsv]
    exact pyRound_eq_of_half_lt _ 21 (by norm_num [weightedSum]) (by norm_num [weightedSum])
      (by norm_num [weightedSum])

/-- C1 witness: the scorer bounds applied at a concrete text and table. -/
theorem priority_score_formula_witness :
    2 ≤ getMaxKeywordScore "mad gdpr" sentimentIndicators 0
    ∧ (getMaxKeywordScore "xyz" urgencyIndicators 0 = 0 ∨
        ∃ p ∈ urgencyIndicators, strContains "xyz" p.1 = true ∧
          getMaxKeywordScore "xyz" urgencyIndicators 0 = p.2) := by
  constructor
  · exact priority_score_formula.1 "mad gdpr" sentimentIndicators ("mad", 2) (by decide) (by decide)
  · exact priority_score_formula.2.1 "xyz" urgencyIndicators

/-- C2: the priority tier is determined from the rounded final score by
inclusive lower-bound thresholds 9 (P0) and 6 (P1), with P2 below; concrete
texts realising final scores 9, 8, 6 and 5 map to P0, P1, P1 and P2; empty
subject and body give all six sub-scores 0, final score 0 and tier P2. -/
theorem priority_tier_mapping :
    (∀ subject body : String,
        ((calculatePriorityScore subject body).1 = Priority.P0 ↔ 9 ≤ finalScore subject body)
        ∧ ((calculatePriorityScore subject body).1 = Priority.P1 ↔
            6 ≤ finalScore subject body ∧ finalScore subject body < 9)
        ∧ ((calculatePriorityScore subject body).1 = Priority.P2 ↔ finalScore subject body < 6))
    ∧ finalScore "" "broken" = 9 ∧ (calculatePriorityScore "" "broken").1 = Priority.P0
    ∧ finalScore "" "urgent" = 8 ∧ (calculatePriorityScore "" "urgent").1 = Priority.P1
    ∧ finalScore "" "mad gdpr" = 6 ∧ (calculatePriorityScore "" "mad gdpr").1 = Priority.P1
    ∧ finalScore "" "rbac" = 5 ∧ (calculatePriorityScore "" "rbac").1 = Priority.P2
    ∧ scoreVector "" "" = ⟨0, 0, 0, 0, 0, 0⟩
    ∧ finalScore "" "" = 0 ∧ (calculatePriorityScore "" "").1 = Priority.P2 := by
  have htier : ∀ subject body : String,
      ((calculatePriorityScore subject body).1 = Priority.P0 ↔ 9 ≤ finalScore subject body)
      ∧ ((calculatePriorityScore subject body).1 = Priority.P1 ↔
          6 ≤ finalScore subject body ∧ finalScore subject body < 9)
      ∧ ((calculatePriorityScore subject body).1 = Priority.P2 ↔
          finalScore subject body < 6) := by
    intro subject body
    have hshape : (calculatePriorityScore subject body).1 =
        (if 9 ≤ finalScore subject body then Priority.P0
         else if 6 ≤ finalScore subject body then Priority.P1 else Priority.P2) := rfl
    refine ⟨?_, ?_, ?_⟩
    · rw [hshape]; split_ifs with h1 h2 <;> simp_all
    · rw [hshape]; split_ifs with h1 h2 <;> simp_all <;> omega
    · rw [hshape]; split_ifs with h1 h2 <;> simp_all <;> omega
  have hsv9 : scoreVector "" "broken" = ⟨3, 0, 3, 0, 0, 0⟩ := by decide
  have h9 : finalScore "" "broken" = 9 := by
    rw [finalScore, hsv9]
    exact pyRound_eq_of_lt_half _ 9 (by norm_num [weightedSum]) (by norm_num [weightedSum])
      (by norm_num [weightedSum])
  have hsv8 : scoreVector "" "urgent" = ⟨3, 0, 0, 0, 2, 0⟩ := by decide
  have h8 : finalScore "" "urgent" = 8 := by
    rw [finalScore, hsv8]
    exact pyRound_eq_of_half_lt _ 7 (by norm_num [weightedSum]) (by norm_num [weightedSum])
      (by norm_num [weightedSum])
  have hsv6 : scoreVector "" "mad gdpr" = ⟨0, 0, 0, 3, 0, 2⟩ := by decide
  have h6 : finalScore "" "mad gdpr" = 6 := by
    rw [finalScore, hsv6]
    exact pyRound_eq_of_lt_half _ 6 (by norm_num [weightedSum]) (by norm_num [weightedSum])
      (by norm_num [weightedSum])
  have hsv5 : scoreVector "" "rbac" = ⟨0, 0, 2, 2, 0, 0⟩ := by decide
  have h5 : finalScore "" "rbac" = 5 := by
    rw [finalScore, hsv5]
    exact pyRound_eq_of_lt_half _ 5 (by norm_num [weightedSum]) (by norm_num [weightedSum])
      (by norm_num [weightedSum])
  have hsv0 : scoreVector "" "" = ⟨0, 0, 0, 0, 0, 0⟩ := by decide
  have h0 : finalScore "" "" = 0 := by
    rw [finalScore, hsv0]
    exact pyRound_eq_of_lt_half _ 0 (by norm_num [weightedSum]) (by norm_num [weightedSum])
      (by norm_num [weightedSum])
  refine ⟨htier, h9, ?_, h8, ?_, h6, ?_, h5, ?_, hsv0, h0, ?_⟩
  · exact (htier "" "broken").1.mpr (by simp [h9])
  · exact (htier "" "urgent").2.1.mpr (by simp [h8])
  · exact (htier "" "mad gdpr").2.1.mpr (by simp [h6])
  · exact (htier "" "rbac").2.2.mpr (by simp [h5])
  · exact (htier "" "").2.2.mpr (by simp [h0])

/-- C2 witness: the threshold equivalences at a concrete ticket text. -/
theorem priority_tier_mapping_witness :
    (calculatePriorityScore "" "broken").1 = Priority.P0 ∧ 9 ≤ finalScore "" "broken" := by
  have h := (priority_tier_mapping.1 "" "broken").1
  have hs : finalScore "" "broken" = 9 := priority_tier_mapping.2.1
  exact ⟨h.mpr (by simp [hs]), by simp [hs]⟩

/-! ## Lemmas: topic list conversion -/

theorem mapTopics_eq_none (xs : List PyVal) (h : ∃ v ∈ xs, topicOfRaw? v = none) :
    mapTopics xs = none := by
  induction xs with
  | nil => rcases h with ⟨v, hv, _⟩; exact absurd hv (List.not_mem_nil v)
  | cons w rest ih =>
    rcases h with ⟨v, hv, hn⟩
    rcases List.mem_cons.mp hv with hw | hmem
    · subst hw; simp [mapTopics, hn]
    · show (match topicOfRaw? w with
        | none => none
        | some t => match mapTopics rest with
          | none => none
          | some ts => some (t :: ts)) = none
      rw [ih ⟨v, hmem, hn⟩]
      rcases topicOfRaw? w with _ | t <;> rfl

theorem mapTopics_all_valid :
    ∀ (ts : List String) (tags : List TopicTag), ts.map topicTagOfValue? = tags.map some →
      mapTopics (ts.map PyVal.vstr) = some tags := by
  intro ts
  induction ts with
  | nil =>
    intro tags h
    rcases tags with _ | ⟨t, tags'⟩
    · rfl
    · simp at h
  | cons s rest ih =>
    intro tags h
    rcases tags with _ | ⟨t, tags'⟩
    · simp at h
    · simp only [List.map_cons, List.cons.injEq] at h
      show (match topicOfRaw? (PyVal.vstr s) with
        | none => none
        | some t' => match mapTopics (rest.map PyVal.vstr) with
          | none => none
          | some ts' => some (t' :: ts')) = some (t :: tags')
      have h1 : topicOfRaw? (PyVal.vstr s) = some t := h.1
      rw [h1, ih tags' h.2]

theorem mapTopics_length :
    ∀ (xs : List PyVal) (tags : List TopicTag), mapTopics xs = some tags →
      tags.length = xs.length := by
  intro xs
  induction xs with
  | nil => intro tags h; simp [mapTopics] at h; simp [← h]
  | cons v rest ih =>
    intro tags h
    revert h
    show (match topicOfRaw? v with
      | none => none
      | some t => match mapTopics rest with
        | none => none
        | some ts => some (t :: ts)) = some tags → tags.length = (v :: rest).length
    rcases hv : topicOfRaw? v with _ | t
    · intro h; exact absurd h (by simp)
    · rcases hr : mapTopics rest with _ | ts
      · intro h; exact absurd h (by simp)
      · intro h
        have : t :: ts = tags := by simpa using h
        subst this
        simp [ih ts hr]

/-- C3 counterexample: a raw topic output whose `topics` field is an empty
list is consumed by `classify` into a `ClassificationResult` whose
`topic_tags` list is empty, not `[How-to]`. -/
theorem topic_tags_empty_counterexample :
    (classifyTicket "\x7b\"topics\": []\x7d" "\x7b\x7d" "" "").map (fun r => r.topicTags) =
      Except.ok ([] : List TopicTag) := rfl

/-- C3 (amended): normalization falls back to `[How-to]` when the `topics`
field is absent, is not a list, or contains an invalid element, and a
nonempty `topics` list never normalizes to an empty list; but a
present-and-empty `topics` list is kept as is, so `classify` can return a
`ClassificationResult` with empty `topic_tags`. -/
theorem topic_normalization_amended :
    (∀ d, dictHasKey d "topics" = false → dictHasKey d "category" = false →
        normalizeTopicsDict d = [TopicTag.HOW_TO])
    ∧ (∀ d v, dictFind? d "topics" = some v → (∀ xs, v ≠ PyVal.vlist xs) →
        normalizeTopicsDict d = [TopicTag.HOW_TO])
    ∧ (∀ d xs, dictFind? d "topics" = some (PyVal.vlist xs) →
        (∃ v ∈ xs, topicOfRaw? v = none) → normalizeTopicsDict d = [TopicTag.HOW_TO])
    ∧ (∀ d xs, dictFind? d "topics" = some (PyVal.vlist xs) → xs ≠ [] →
        normalizeTopicsDict d ≠ [])
    ∧ (∀ d, dictFind? d "topics" = some (PyVal.vlist []) → normalizeTopicsDict d = [])
    ∧ (classifyTicket "\x7b\"topics\": []\x7d" "\x7b\x7d" "" "").map (fun r => r.topicTags) =
        Except.ok ([] : List TopicTag) := by
  have hkey : ∀ d xs, dictFind? d "topics" = some (PyVal.vlist xs) →
      normalizeTopicsDict d = (match mapTopics xs with
        | some tags => tags
        | none => [TopicTag.HOW_TO]) := by
    intro d xs h
    simp [normalizeTopicsDict, dictHasKey, h]
  refine ⟨?_, ?_, ?_, ?_, ?_, rfl⟩
  · intro d h1 h2
    rcases hf : dictFind? d "topics" with _ | v
    · rcases hg : dictFind? d "category" with _ | w
      · simp [normalizeTopicsDict, dictHasKey, hf, hg, mapTopics, topicOfRaw?, topicTagOfValue?]
      · rw [dictHasKey, hg] at h2
        simp at h2
    · rw [dictHasKey, hf] at h1
      simp at h1
  · intro d v h hv
    rcases v with _ | b | q | s | xs | entries
    · simp [normalizeTopicsDict, dictHasKey, h, mapTopics, topicOfRaw?, topicTagOfValue?]
    · simp [normalizeTopicsDict, dictHasKey, h, mapTopics, topicOfRaw?, topicTagOfValue?]
    · simp [normalizeTopicsDict, dictHasKey, h, mapTopics, topicOfRaw?, topicTagOfValue?]
    · simp [normalizeTopicsDict, dictHasKey, h, mapTopics, topicOfRaw?, topicTagOfValue?]
    · exact absurd rfl (hv xs)
    · simp [normalizeTopicsDict, dictHasKey, h, mapTopics, topicOfRaw?, topicTagOfValue?]
  · intro d xs h hex
    rw [hkey d xs h, mapTopics_eq_none xs hex]
  · intro d xs h hne
    rw [hkey d xs h]
    rcases hm : mapTopics xs with _ | tags
    · simp
    · show tags ≠ []
      have hlen := mapTopics_length xs tags hm
      intro hcon
      rw [hcon] at hlen
      simp at hlen
      exact hne (List.length_eq_zero.mp hlen.symm)
  · intro d h
    rw [hkey d [] h]
    rfl

/-- C3 amended witness: the fallback clauses at concrete dicts. -/
theorem topic_normalization_amended_witness :
    normalizeTopicsDict [("other", PyVal.vnull)] = [TopicTag.HOW_TO]
    ∧ normalizeTopicsDict [("topics", PyVal.vstr "Product")] = [TopicTag.HOW_TO]
    ∧ normalizeTopicsDict [("topics", PyVal.vlist [PyVal.vstr "Product"])] ≠ [] := by
  refine ⟨?_, ?_, ?_⟩
  · exact topic_normalization_amended.1 [("other", PyVal.vnull)] (by decide) (by decide)
  · exact topic_normalization_amended.2.1 [("topics", PyVal.vstr "Product")]
      (PyVal.vstr "Product") rfl (fun xs h => by cases h)
  · exact topic_normalization_amended.2.2.2.1 [("topics", PyVal.vlist [PyVal.vstr "Product"])]
      [PyVal.vstr "Product"] rfl (by simp)

/-- C5: topic validation is all-or-nothing: a list with any element outside
the ten case-sensitive `TopicTag` values collapses to `[How-to]`; a list of
all-valid values is kept in order with duplicates preserved;
`{topics: ["NotARealTopic"]}` normalizes to `[How-to]`; and normalization of
a parsed dict never fails. -/
theorem topic_validation_all_or_nothing :
    (∀ ts : List String, (∃ s ∈ ts, topicTagOfValue? s = none) →
        normalizeTopicsDict [("topics", PyVal.vlist (ts.map PyVal.vstr))] = [TopicTag.HOW_TO])
    ∧ (∀ (ts : List String) (tags : List TopicTag), ts.map topicTagOfValue? = tags.map some →
        normalizeTopicsDict [("topics", PyVal.vlist (ts.map PyVal.vstr))] = tags)
    ∧ normalizeTopicsDict [("topics", PyVal.vlist [PyVal.vstr "NotARealTopic"])] =
        [TopicTag.HOW_TO]
    ∧ (∀ d, normalizeTopicsVal (PyVal.vdict d) = Except.ok (normalizeTopicsDict d))
    ∧ (classifyTicket "\x7b\"topics\": [\"NotARealTopic\"]\x7d" "\x7b\x7d" "" "").map
        (fun r => (r.topicTags, r.sentiment)) =
        Except.ok ([TopicTag.HOW_TO], Sentiment.NEUTRAL) := by
  have hone : ∀ xs : List PyVal,
      normalizeTopicsDict [("topics", PyVal.vlist xs)] = (match mapTopics xs with
        | some tags => tags
        | none => [TopicTag.HOW_TO]) := by
    intro xs
    simp [normalizeTopicsDict, dictHasKey, dictFind?]
  refine ⟨?_, ?_, ?_, ?_, rfl⟩
  · intro ts ⟨s, hs, hn⟩
    rw [hone, mapTopics_eq_none (ts.map PyVal.vstr)
      ⟨PyVal.vstr s, List.mem_map_of_mem PyVal.vstr hs, by simp [topicOfRaw?, hn]⟩]
  · intro ts tags h
    rw [hone, mapTopics_all_valid ts tags h]
  · decide
  · intro d; rfl

/-- C5 witness: an invalid element collapses the list; an all-valid list
with a duplicate is kept in order. -/
theorem topic_validation_all_or_nothing_witness :
    normalizeTopicsDict [("topics", PyVal.vlist ([PyVal.vstr "Product", PyVal.vstr "Nope"]))] =
      [TopicTag.HOW_TO]
    ∧ normalizeTopicsDict
        [("topics", PyVal.vlist (["Product", "Product", "SSO"].map PyVal.vstr))] =
        [TopicTag.PRODUCT, TopicTag.PRODUCT, TopicTag.SSO] := by
  constructor
  · have := topic_validation_all_or_nothing.1 ["Product", "Nope"]
      ⟨"Nope", by simp, by decide⟩
    simpa using this
  · exact topic_validation_all_or_nothing.2.1 ["Product", "Product", "SSO"]
      [TopicTag.PRODUCT, TopicTag.PRODUCT, TopicTag.SSO] (by decide)

/-! ## Lemmas: sentiment validation -/

theorem sentimentOfValue?_mem_valid (t : String) (x : Sentiment)
    (h : sentimentOfValue? t = some x) : validSentiments.contains t = true := by
  unfold sentimentOfValue? at h
  split_ifs at h with h1 h2 h3 h4 h5 <;>
    first
      | (subst h1; decide)
      | (subst h2; decide)
      | (subst h3; decide)
      | (subst h4; decide)
      | (subst h5; decide)
      | exact absurd h (by simp)

/-- C6: sentiment normalization capitalizes (first letter upper, rest
lower), applies the synonym map, and defaults to `Neutral` when the result
is still not one of the five valid values; `"Hostile"` maps to `Angry` and
`"gibberish"` to `Neutral`. -/
theorem sentiment_normalization_spec :
    sentimentMapping = [("Concerned", "Confused"), ("Worried", "Confused"),
      ("Annoyed", "Frustrated"), ("Upset", "Frustrated"), ("Irritated", "Frustrated"),
      ("Hostile", "Angry"), ("Furious", "Angry")]
    ∧ (∀ s kv, sentimentMapping.find? (fun p => p.1 == pyCapitalize s) = some kv →
        normalizeSentimentStr s = (sentimentOfValue? kv.2).getD Sentiment.NEUTRAL)
    ∧ (∀ s, sentimentMapping.find? (fun p => p.1 == pyCapitalize s) = none →
        validSentiments.contains (pyCapitalize s) = false →
        normalizeSentimentStr s = Sentiment.NEUTRAL)
    ∧ (∀ s x, sentimentMapping.find? (fun p => p.1 == pyCapitalize s) = none →
        sentimentOfValue? (pyCapitalize s) = some x → normalizeSentimentStr s = x)
    ∧ pyCapitalize "hOSTile" = "Hostile"
    ∧ normalizeSentimentStr "Hostile" = Sentiment.ANGRY
    ∧ normalizeSentimentStr "gibberish" = Sentiment.NEUTRAL
    ∧ (∀ d s, dictFind? d "sentiment" = some (PyVal.vstr s) →
        normalizeSentimentVal (PyVal.vdict d) = Except.ok (normalizeSentimentStr s))
    ∧ (∀ d, dictFind? d "sentiment" = none →
        normalizeSentimentVal (PyVal.vdict d) = Except.ok Sentiment.NEUTRAL) := by
  refine ⟨rfl, ?_, ?_, ?_, by decide, by decide, by decide, ?_, ?_⟩
  · intro s kv h
    simp only [normalizeSentimentStr, h]
    rcases h2 : sentimentOfValue? kv.2 with _ | x <;> simp [h2, Option.getD]
  · intro s h1 h2
    simp only [normalizeSentimentStr, h1, h2]
    rfl
  · intro s x h1 h2
    have hc := sentimentOfValue?_mem_valid (pyCapitalize s) x h2
    simp only [normalizeSentimentStr, h1, hc, if_true, h2]
  · intro d s h
    simp [normalizeSentimentVal, h]
  · intro d h
    simp only [normalizeSentimentVal, h]
    rfl

/-- C6 witness: the synonym clause and default clause at concrete inputs. -/
theorem sentiment_normalization_spec_witness :
    normalizeSentimentStr "hostile" = (sentimentOfValue? "Angry").getD Sentiment.NEUTRAL
    ∧ normalizeSentimentStr "meh" = Sentiment.NEUTRAL := by
  constructor
  · exact sentiment_normalization_spec.2.1 "hostile" ("Hostile", "Angry") (by decide)
  · exact sentiment_normalization_spec.2.2.1 "meh" (by decide) (by decide)

/-- C7: the JSON recovery step is total: whenever the cleaning-then-parse
attempt fails, the result is the safe fallback `{topics: ["How-to"], ...}`;
code fences and stray whitespace are removed before parsing; and a
classification fed unparseable responses still completes, with topics
`[How-to]` and sentiment `Neutral`. -/
theorem json_recovery_total :
    (∀ r e, parseJsonAttempt r = Except.error e → parseJsonResponse r = fallbackDict)
    ∧ fallbackDict = PyVal.vdict [("topics", PyVal.vlist [PyVal.vstr "How-to"]),
        ("reasoning", PyVal.vstr "Failed to parse response")]
    ∧ parseJsonResponse "this is not json at all" = fallbackDict
    ∧ parseJsonResponse "```json\n\x7b \"topics\" : [ \"Product\" ] \x7d\n```" =
        PyVal.vdict [("topics", PyVal.vlist [PyVal.vstr "Product"])]
    ∧ normalizeTopicsVal fallbackDict = Except.ok [TopicTag.HOW_TO]
    ∧ normalizeSentimentVal fallbackDict = Except.ok Sentiment.NEUTRAL
    ∧ (classifyTicket "garbage" "also garbage" "" "").map
        (fun r => (r.topicTags, r.sentiment)) =
        Except.ok ([TopicTag.HOW_TO], Sentiment.NEUTRAL) := by
  refine ⟨?_, rfl, rfl, rfl, rfl, rfl, rfl⟩
  intro r e h
  simp [parseJsonResponse, h]

/-- C7 witness: the failure clause applied at a concrete unparseable
response. -/
theorem json_recovery_total_witness :
    parseJsonResponse "xyz" = fallbackDict :=
  json_recovery_total.1 "xyz" "Expecting value" rfl

/-! ## Routing claims -/

/-- C4: the automated-answer path is taken iff some topic tag lies in the
allow-set `{How-to, Product, Best practices, API/SDK, SSO}`; when automated,
the scope is `devhub` if `API/SDK` is present, else `docs` when one of the
other allowed topics is present; otherwise the ticket is escalated with a
routing message and no automated answer. -/
theorem routing_policy_spec :
    (∀ tags : List String,
        (routeTicket tags).useAutomatedAnswer = tags.any (fun t => tavilyTopics.contains t))
    ∧ (∀ tags : List String, tags.contains "API/SDK" = true →
        routeTicket tags = ⟨true, some "devhub", none⟩)
    ∧ (∀ tags : List String, tags.contains "API/SDK" = false →
        (["Product", "Best practices", "SSO", "How-to"] : List String).any
          (fun t => tags.contains t) = true →
        routeTicket tags = ⟨true, some "docs", none⟩)
    ∧ (∀ tags : List String, tags.any (fun t => tavilyTopics.contains t) = false →
        routeTicket tags = ⟨false, none,
          some ((lookupStr routingMessages (tags.headD "Other")).getD
            ("This ticket has been classified as a '" ++ tags.headD "Other" ++
              "' issue and routed to the appropriate team."))⟩)
    ∧ routeTicket ["Connector"] = ⟨false, none,
        some "This ticket has been classified as a 'Connector' issue and routed to the appropriate team."⟩
    ∧ routeTicket ["API/SDK"] = ⟨true, some "devhub", none⟩
    ∧ routeTicket ["Product", "Connector"] = ⟨true, some "docs", none⟩ := by
  refine ⟨?_, ?_, ?_, ?_, by decide, by decide, by decide⟩
  · intro tags
    cases hb : tags.any (fun t => tavilyTopics.contains t) with
    | false =>
      simp only [routeTicket]
      rw [if_neg (by rw [hb]; exact Bool.false_ne_true)]
    | true =>
      simp only [routeTicket]
      rw [if_pos hb]
  · intro tags h
    have hmem : "API/SDK" ∈ tags := by simpa using h
    have hany : tags.any (fun t => tavilyTopics.contains t) = true :=
      List.any_eq_true.mpr ⟨"API/SDK", hmem, by decide⟩
    simp only [routeTicket]
    rw [if_pos hany, if_pos h]
  · intro tags hapi hfour
    have hany : tags.any (fun t => tavilyTopics.contains t) = true := by
      rcases List.any_eq_true.mp hfour with ⟨t, ht4, htc⟩
      have htmem : t ∈ tags := by simpa using htc
      have htv : tavilyTopics.contains t = true := by
        simp only [List.mem_cons, List.not_mem_nil, or_false] at ht4
        rcases ht4 with rfl | rfl | rfl | rfl <;> decide
      exact List.any_eq_true.mpr ⟨t, htmem, htv⟩
    simp only [routeTicket]
    rw [if_pos hany,
      if_neg (show ¬(tags.contains "API/SDK" = true) by rw [hapi]; exact Bool.false_ne_true),
      if_pos hfour]
  · intro tags h
    simp only [routeTicket]
    rw [if_neg (by rw [h]; exact Bool.false_ne_true)]

/-- C4 witness: the devhub and docs clauses at concrete tag lists. -/
theorem routing_policy_spec_witness :
    routeTicket ["Connector", "API/SDK"] = ⟨true, some "devhub", none⟩
    ∧ routeTicket ["SSO"] = ⟨true, some "docs", none⟩ :=
  ⟨routing_policy_spec.2.1 ["Connector", "API/SDK"] (by decide),
   routing_policy_spec.2.2.1 ["SSO"] (by decide) (by decide)⟩

/-- C10: whenever the automated-answer path is chosen, the selected scope is
`devhub` or `docs`; the default scope `both` is unreachable, since every
allow-set topic other than `API/SDK` triggers the `docs` branch. -/
theorem automated_scope_not_both :
    ∀ tags : List String, (routeTicket tags).useAutomatedAnswer = true →
      (routeTicket tags).siteType = some "devhub" ∨
        (routeTicket tags).siteType = some "docs" := by
  intro tags h
  by_cases hany : tags.any (fun t => tavilyTopics.contains t) = true
  · by_cases hapi : tags.contains "API/SDK" = true
    · left
      simp only [routeTicket]
      rw [if_pos hany, if_pos hapi]
    · right
      rw [Bool.not_eq_true] at hapi
      have hfour : (["Product", "Best practices", "SSO", "How-to"] : List String).any
          (fun t => tags.contains t) = true := by
        rcases List.any_eq_true.mp hany with ⟨t, htmem, htv⟩
        have ht5 : t ∈ tavilyTopics := by simpa [tavilyTopics] using htv
        simp only [tavilyTopics, List.mem_cons, List.not_mem_nil, or_false] at ht5
        have htc : tags.contains t = true := by simpa using htmem
        rcases ht5 with rfl | rfl | rfl | rfl | rfl
        · exact List.any_eq_true.mpr ⟨"How-to", by decide, htc⟩
        · exact List.any_eq_true.mpr ⟨"Product", by decide, htc⟩
        · exact List.any_eq_true.mpr ⟨"Best practices", by decide, htc⟩
        · exact absurd htc (by rw [hapi]; exact Bool.false_ne_true)
        · exact List.any_eq_true.mpr ⟨"SSO", by decide, htc⟩
      simp only [routeTicket]
      rw [if_pos hany,
      if_neg (show ¬(tags.contains "API/SDK" = true) by rw [hapi]; exact Bool.false_ne_true),
      if_pos hfour]
  · rw [Bool.not_eq_true] at hany
    simp only [routeTicket] at h
    rw [if_neg (by rw [hany]; exact Bool.false_ne_true)] at h
    simp at h

/-- C10 witness: the scope dichotomy at a concrete automated routing. -/
theorem automated_scope_not_both_witness :
    (routeTicket ["Product"]).siteType = some "devhub" ∨
      (routeTicket ["Product"]).siteType = some "docs" :=
  automated_scope_not_both ["Product"] (by decide)

/-! ## Retry claims -/

theorem llmAttempts_calls_le (o : Nat → CallOutcome) (j : Nat → ℚ) :
    ∀ (fuel a : Nat), (llmAttempts o j a fuel).calls ≤ fuel := by
  intro fuel
  induction fuel with
  | zero => intro a; exact le_refl 0
  | succ fuel ih =>
    intro a
    show (llmAttempts o j a (fuel + 1)).calls ≤ fuel + 1
    rcases ho : o a with s | m
    · simp [llmAttempts, ho]
    · by_cases hr : isRateLimitMsg m = true
      · by_cases ha : a < maxRetries - 1
        · simp only [llmAttempts, ho, hr, if_true, ha]
          exact Nat.succ_le_succ (ih (a + 1))
        · simp [llmAttempts, ho, hr, ha]
      · rw [Bool.not_eq_true] at hr
        by_cases ha : a < maxRetries - 1
        · simp only [llmAttempts, ho, hr, Bool.false_eq_true, if_false, if_true, ha]
          exact Nat.succ_le_succ (ih (a + 1))
        · simp [llmAttempts, ho, hr, ha]

/-- C8: at most 3 attempts are made; a rate-limit failure on a non-final
attempt is retried after `base_delay * 2 ^ attempt + jitter`, any other
failure after the fixed base delay; an error is raised only when all 3
attempts fail; and two rate-limit failures followed by a success yield that
success with no error. -/
theorem retry_policy_spec :
    maxRetries = 3
    ∧ (∀ (o : Nat → CallOutcome) (j : Nat → ℚ), (getLlmResponseTrace o j).calls ≤ 3)
    ∧ (∀ (o : Nat → CallOutcome) (j : Nat → ℚ) (e : String),
        (getLlmResponseTrace o j).result = Except.error e →
          (∃ m, o 0 = CallOutcome.failure m) ∧ (∃ m, o 1 = CallOutcome.failure m) ∧
            ∃ m, o 2 = CallOutcome.failure m)
    ∧ (∀ (o : Nat → CallOutcome) (j : Nat → ℚ) (m1 m2 s : String),
        o 0 = CallOutcome.failure m1 → isRateLimitMsg m1 = true →
        o 1 = CallOutcome.failure m2 → isRateLimitMsg m2 = true →
        o 2 = CallOutcome.success s →
        getLlmResponseTrace o j =
          ⟨Except.ok s, [baseDelay * 2 ^ 0 + j 0, baseDelay * 2 ^ 1 + j 1], 3⟩)
    ∧ (∀ (o : Nat → CallOutcome) (j : Nat → ℚ) (m s : String),
        o 0 = CallOutcome.failure m → isRateLimitMsg m = false →
        o 1 = CallOutcome.success s →
        getLlmResponseTrace o j = ⟨Except.ok s, [baseDelay], 2⟩)
    ∧ (∀ (o : Nat → CallOutcome) (j : Nat → ℚ) (m0 m1 m2 : String),
        o 0 = CallOutcome.failure m0 → o 1 = CallOutcome.failure m1 →
        o 2 = CallOutcome.failure m2 →
        ∃ e, (getLlmResponseTrace o j).result = Except.error e) := by
  refine ⟨rfl, ?_, ?_, ?_, ?_, ?_⟩
  · intro o j
    exact llmAttempts_calls_le o j maxRetries 0
  · intro o j e h
    rcases h0 : o 0 with s0 | m0
    · simp [getLlmResponseTrace, llmAttempts, h0] at h
    · rcases h1 : o 1 with s1 | m1
      · by_cases hr0 : isRateLimitMsg m0 = true
        · simp [getLlmResponseTrace, llmAttempts, h0, hr0, h1, maxRetries] at h
        · rw [Bool.not_eq_true] at hr0
          simp [getLlmResponseTrace, llmAttempts, h0, hr0, h1, maxRetries] at h
      · rcases h2 : o 2 with s2 | m2
        · cases hr0 : isRateLimitMsg m0 <;> cases hr1 : isRateLimitMsg m1 <;>
            simp [getLlmResponseTrace, llmAttempts, h0, h1, h2, hr0, hr1, maxRetries] at h
        · exact ⟨⟨m0, rfl⟩, ⟨m1, rfl⟩, ⟨m2, rfl⟩⟩
  · intro o j m1 m2 s h0 hr0 h1 hr1 h2
    simp [getLlmResponseTrace, llmAttempts, h0, hr0, h1, hr1, h2, maxRetries]
  · intro o j m s h0 hr0 h1
    simp [getLlmResponseTrace, llmAttempts, h0, hr0, h1, maxRetries]
  · intro o j m0 m1 m2 h0 h1 h2
    cases hr0 : isRateLimitMsg m0 <;> cases hr1 : isRateLimitMsg m1 <;>
      cases hr2 : isRateLimitMsg m2 <;>
      simp [getLlmResponseTrace, llmAttempts, h0, h1, h2, hr0, hr1, hr2, maxRetries]

/-- C8 witness: a capability failing twice with rate-limit signals then
succeeding yields the success, with backoff delays `1 * 2 ^ 0 + 1` and
`1 * 2 ^ 1 + 1`. -/
theorem retry_policy_spec_witness :
    getLlmResponseTrace
      (fun i => if i = 0 then CallOutcome.failure "rate_limit_exceeded" else
        if i = 1 then CallOutcome.failure "HTTP 429" else CallOutcome.success "ok")
      (fun _ => 1) = ⟨Except.ok "ok", [2, 3], 3⟩ := by
  have h := retry_policy_spec.2.2.2.1
    (fun i => if i = 0 then CallOutcome.failure "rate_limit_exceeded" else
      if i = 1 then CallOutcome.failure "HTTP 429" else CallOutcome.success "ok")
    (fun _ => 1) "rate_limit_exceeded" "HTTP 429" "ok" rfl (by decide) rfl (by decide) rfl
  rw [h]
  norm_num [baseDelay]

/-! ## Cache claims -/

theorem cacheInsert_fresh (cache : List (String × String)) (k v : String)
    (h : k ∉ cache.map Prod.fst) : cacheInsert cache k v = cache ++ [(k, v)] := by
  have hb : (cache.any fun e => e.1 == k) = false := by
    rw [← Bool.not_eq_true, List.any_eq_true]
    rintro ⟨e, he, heq⟩
    exact h (List.mem_map.mpr ⟨e, he, by simpa using heq⟩)
  unfold cacheInsert
  rw [if_neg (by rw [hb]; exact Bool.false_ne_true)]

theorem cacheInsert_length_le (cache : List (String × String)) (k v : String) :
    (cacheInsert cache k v).length ≤ cache.length + 1 := by
  by_cases hb : (cache.any fun e => e.1 == k) = true
  · unfold cacheInsert
    rw [if_pos hb, List.length_map]
    omega
  · rw [Bool.not_eq_true] at hb
    unfold cacheInsert
    rw [if_neg (by rw [hb]; exact Bool.false_ne_true), List.length_append]
    simp

theorem cacheInsert_keys_nodup (cache : List (String × String)) (k v : String)
    (h : (cache.map Prod.fst).Nodup) : ((cacheInsert cache k v).map Prod.fst).Nodup := by
  by_cases hb : (cache.any fun e => e.1 == k) = true
  · have hkeys : ((cache.map fun e => if e.1 == k then (e.1, v) else e).map Prod.fst)
        = cache.map Prod.fst := by
      rw [List.map_map]
      apply List.map_congr_left
      intro e _
      show (if (e.1 == k) = true then (e.1, v) else e).1 = e.1
      split <;> rfl
    unfold cacheInsert
    rw [if_pos hb, hkeys]
    exact h
  · rw [Bool.not_eq_true] at hb
    have hk : k ∉ cache.map Prod.fst := by
      intro hkm
      rcases List.mem_map.mp hkm with ⟨e, he, hek⟩
      have : (cache.any fun e => e.1 == k) = true :=
        List.any_eq_true.mpr ⟨e, he, by simp [hek]⟩
      rw [hb] at this
      exact Bool.false_ne_true this
    unfold cacheInsert
    rw [if_neg (by rw [hb]; exact Bool.false_ne_true), List.map_append]
    simp [List.nodup_append, h, hk]

theorem cacheResponseGen_length_le (cap : Nat) (cache : List (String × String))
    (k v : String) (hcap : 0 < cap) (h : cache.length ≤ cap) :
    (cacheResponseGen cap cache k v).length ≤ cap := by
  simp only [cacheResponseGen]
  by_cases hge : cap ≤ cache.length
  · rw [if_pos hge]
    refine le_trans (cacheInsert_length_le _ _ _) ?_
    rw [List.length_drop]
    omega
  · rw [if_neg hge]
    refine le_trans (cacheInsert_length_le _ _ _) ?_
    omega

theorem cacheResponseGen_keys_nodup (cap : Nat) (cache : List (String × String))
    (k v : String) (h : (cache.map Prod.fst).Nodup) :
    ((cacheResponseGen cap cache k v).map Prod.fst).Nodup := by
  simp only [cacheResponseGen]
  by_cases hge : cap ≤ cache.length
  · rw [if_pos hge]
    apply cacheInsert_keys_nodup
    exact ((List.drop_sublist _ _).map Prod.fst).nodup h
  · rw [if_neg hge]
    exact cacheInsert_keys_nodup _ _ _ h

theorem cacheFold_fill (cap : Nat) (f : String → String) :
    ∀ ks : List String, ks.Nodup → ks.length ≤ cap →
      ks.foldl (fun c k => cacheResponseGen cap c k (f k)) [] =
        ks.map (fun k => (k, f k)) := by
  intro ks
  induction ks using List.reverseRecOn with
  | nil => intro _ _; rfl
  | append_singleton ks k ih =>
    intro hnd hlen
    rcases List.nodup_append.mp hnd with ⟨hnd', _, hdisj⟩
    have hk : k ∉ ks := fun hm => hdisj hm (by simp)
    have hlen' : ks.length < cap := by
      rw [List.length_append] at hlen
      simp at hlen
      omega
    rw [List.foldl_append]
    simp only [List.foldl_cons, List.foldl_nil]
    rw [ih hnd' (le_of_lt hlen')]
    simp only [cacheResponseGen]
    rw [if_neg (by rw [List.length_map]; omega)]
    rw [cacheInsert_fresh _ _ _ (by simpa using hk)]
    rw [List.map_append]
    rfl

/-- C9: the cache holds at most one entry per key and at most 1000 entries;
a put at or above capacity first evicts the `size - capacity + 1`
earliest-inserted entries; and inserting `capacity + 1` distinct keys into
an empty cache leaves exactly the last `capacity` keys, the first-inserted
key having been evicted. -/
theorem cache_eviction_spec :
    cacheMaxSize = 1000
    ∧ (∀ cache k v, cacheResponse cache k v = cacheResponseGen 1000 cache k v)
    ∧ (∀ (cap : Nat) (cache : List (String × String)) (k v : String), cap ≤ cache.length →
        cacheResponseGen cap cache k v = cacheInsert (cache.drop (cache.length - cap + 1)) k v)
    ∧ (∀ cache k v, (cache.map Prod.fst).Nodup →
        ((cacheResponse cache k v).map Prod.fst).Nodup)
    ∧ (∀ cache k v, cache.length ≤ 1000 → (cacheResponse cache k v).length ≤ 1000)
    ∧ (∀ (cap : Nat) (ks : List String) (f : String → String), 0 < cap → ks.Nodup →
        ks.length = cap + 1 →
        (ks.foldl (fun c k => cacheResponseGen cap c k (f k)) []).map Prod.fst = ks.drop 1) := by
  refine ⟨rfl, fun _ _ _ => rfl, ?_, ?_, ?_, ?_⟩
  · intro cap cache k v h
    simp only [cacheResponseGen]
    rw [if_pos h]
  · intro cache k v h
    exact cacheResponseGen_keys_nodup 1000 cache k v h
  · intro cache k v h
    exact cacheResponseGen_length_le 1000 cache k v (by omega) h
  · intro cap ks f hcap hnd hlen
    cases ks using List.reverseRecOn with
    | nil => simp at hlen
    | append_singleton init last =>
      rcases List.nodup_append.mp hnd with ⟨hnd', _, hdisj⟩
      have hk : last ∉ init := fun hm => hdisj hm (by simp)
      have hinit : init.length = cap := by
        rw [List.length_append] at hlen
        simp at hlen
        omega
      rw [List.foldl_append]
      simp only [List.foldl_cons, List.foldl_nil]
      rw [cacheFold_fill cap f init hnd' (le_of_eq hinit)]
      simp only [cacheResponseGen]
      rw [if_pos (by rw [List.length_map]; omega)]
      have hdrop : (init.map fun k => (k, f k)).drop
          ((init.map fun k => (k, f k)).length - cap + 1) =
          (init.drop 1).map (fun k => (k, f k)) := by
        rw [List.length_map, hinit, Nat.sub_self]
        exact (List.map_drop _ _ _).symm
      rw [hdrop]
      have hlast : last ∉ ((init.drop 1).map fun k => (k, f k)).map Prod.fst := by
        intro hm
        rcases List.mem_map.mp hm with ⟨p, hp, hpe⟩
        rcases List.mem_map.mp hp with ⟨x, hx, rfl⟩
        rw [show (x, f x).1 = x from rfl] at hpe
        subst hpe
        exact hk (List.drop_subset _ _ hx)
      rw [cacheInsert_fresh _ _ _ hlast, List.map_append, List.map_map]
      have hid : ((init.drop 1).map (Prod.fst ∘ fun k => (k, f k))) = init.drop 1 := by
        rw [show (Prod.fst ∘ fun k => (k, f k)) = id from funext fun x => rfl, List.map_id]
      rw [hid]
      have hrhs : (init ++ [last]).drop 1 = init.drop 1 ++ [last] := by
        rw [List.drop_append_eq_append_drop]
        have : 1 - init.length = 0 := by omega
        rw [this, List.drop_zero]
      rw [hrhs]
      rfl

/-- C9 witness: inserting 3 distinct keys into an empty cache of capacity 2
leaves the last 2 keys, the first evicted. -/
theorem cache_eviction_spec_witness :
    ((["a", "b", "c"] : List String).foldl
      (fun c k => cacheResponseGen 2 c k ((fun _ => "v") k)) []).map Prod.fst = ["b", "c"] := by
  have h := cache_eviction_spec.2.2.2.2.2 2 ["a", "b", "c"] (fun _ => "v")
    (by omega) (by decide) (by decide)
  simpa using h

end TicketCore
